import Mathlib

/-!
Verification development for the `ai-codereviewer` GitHub action
(`src/main.ts`).  The TypeScript source is shallowly embedded below:
pure functions become Lean functions, the effectful orchestration
(`analyzeCode`, `main`) becomes pure functions parameterised by the
results of the external collaborators (GitHub API, model provider), and
externally supplied JavaScript primitives (`Number`, `String.prototype.split`,
`String.prototype.trim`, `Set`, the `minimatch` library) are modelled as
executable Lean functions whose doc comments state exactly the fragment
of the JS semantics they capture.
-/

namespace AIReviewer

/-! ## Data model (the `parse-diff` types used by `main.ts`) -/

/-- A `parse-diff` `Change`: a tagged variant.  `NormalChange` carries
`normal: true` with both line numbers `ln1`/`ln2`, `AddChange` carries
`add: true` with the new-file line `ln`, `DeleteChange` carries
`del: true` with the old-file line `ln`; each carries the line text. -/
inductive Change where
  | normal (ln1 ln2 : Nat) (content : String)
  | add (ln : Nat) (content : String)
  | del (ln : Nat) (content : String)
deriving DecidableEq, Repr

/-- A `parse-diff` `Chunk` (hunk): range header fields, the raw header
text (`content`) and the ordered list of changes. -/
structure Chunk where
  oldStart : Nat
  oldLines : Nat
  newStart : Nat
  newLines : Nat
  content : String
  changes : List Change
deriving DecidableEq, Repr

/-- A `parse-diff` `File`: the fields `main.ts` reads.  Field `to` is the
destination path, `undefined` (here `none`) when absent; `parse-diff`
also carries `from`/`additions`/`deletions`, which the program never
reads, so they are omitted. -/
structure File where
  «to» : Option String
  chunks : List Chunk
deriving DecidableEq, Repr

/-- Structure `PRDetails` (main.ts lines 18-24). -/
structure PRDetails where
  owner : String
  repo : String
  pull_number : Nat
  title : String
  description : String
deriving DecidableEq, Repr

/-- The action's configuration surface, read through `core.getInput`
(main.ts lines 8-10 and 326-327). -/
structure Inputs where
  GITHUB_TOKEN : String
  OPENAI_API_KEY : String
  OPENAI_API_MODEL : String
  exclude : String
deriving DecidableEq, Repr

/-- One entry of the model's `reviews` array, as typed in
`getAIResponse` (main.ts lines 165-168): the line number arrives as a
string. -/
structure AIResponseItem where
  lineNumber : String
  reviewComment : String
deriving DecidableEq, Repr

/-- A review comment record `{body, path, line}` as built by
`createComment` (main.ts line 210). -/
structure ReviewComment where
  body : String
  path : String
  line : Nat
deriving DecidableEq, Repr

/-- Reads `core.getInput("OPENAI_API_MODEL")` (main.ts line 10): the
configured model identifier. -/
def OPENAI_API_MODEL (inputs : Inputs) : String :=
  inputs.OPENAI_API_MODEL

/-! ## Modelled JavaScript primitives -/

/-- Models JS `String.prototype.trim` on a character-list
representation: strips leading and trailing whitespace. -/
def jsTrim (s : String) : String :=
  String.mk (((s.data.dropWhile Char.isWhitespace).reverse.dropWhile Char.isWhitespace).reverse)

/-- Models JS `String.prototype.split` with a one-character separator:
`"".split(",")` yields `[""]`, and separators delimit (possibly empty)
fields. -/
def jsSplitAux (sep : Char) : List Char → List Char → List String
  | [], acc => [String.mk acc.reverse]
  | c :: cs, acc =>
    if c = sep then String.mk acc.reverse :: jsSplitAux sep cs []
    else jsSplitAux sep cs (c :: acc)

/-- See `jsSplitAux`. -/
def jsSplit (s : String) (sep : Char) : List String :=
  jsSplitAux sep s.data []

/-- Models JS `Number(string)` conversion on the fragment this program
exercises, with `none` standing for `NaN`: the input is whitespace
trimmed; the empty string converts to `0`; a non-empty decimal digit
string converts to its value; every other string (non-numeric, signed,
fractional, exponent or hex forms) is mapped to `none`.  The forms
collapsed to `none` can only under-approximate the set of emitted
comments relative to JS, never place a comment on a new line, since
every comment is still guarded by membership of the converted number in
the chunk's valid-line set. -/
def jsNumber (s : String) : Option Nat :=
  let t := (jsTrim s).data
  if t.isEmpty then some 0
  else if t.all Char.isDigit then
    some (t.foldl (fun n c => 10 * n + (c.toNat - 48)) 0)
  else none

/-- Models the JS `Set` constructor applied to a list, observed through
`Set.prototype.has` and `Array.from`: deduplication keeping the first
occurrence, in insertion order.  `seen` accumulates the elements already
inserted. -/
def insertionOrderDedupAux : List Nat → List Nat → List Nat
  | [], _ => []
  | x :: xs, seen =>
    if x ∈ seen then insertionOrderDedupAux xs seen
    else x :: insertionOrderDedupAux xs (x :: seen)

/-- See `insertionOrderDedupAux`. -/
def insertionOrderDedup (l : List Nat) : List Nat :=
  insertionOrderDedupAux l []

/-- Modelled from the spec: the external `minimatch` glob library, on
the fragment relevant here, with explicit fuel (an upper bound on the
recursion depth, so the function is structurally recursive).  `*`
matches any run of non-`/` characters, `?` matches one non-`/`
character, other characters match literally, and the empty pattern
matches only the empty string. -/
def globMatchFuel : Nat → List Char → List Char → Bool
  | 0, _, _ => false
  | fuel + 1, p, s =>
    match p, s with
    | [], [] => true
    | [], _ :: _ => false
    | '*' :: ps, [] => globMatchFuel fuel ps []
    | '*' :: ps, c :: cs =>
        globMatchFuel fuel ps (c :: cs)
          || (decide (c ≠ '/') && globMatchFuel fuel ('*' :: ps) cs)
    | '?' :: _, [] => false
    | '?' :: ps, c :: cs => decide (c ≠ '/') && globMatchFuel fuel ps cs
    | _ :: _, [] => false
    | pc :: ps, c :: cs => decide (pc = c) && globMatchFuel fuel ps cs

/-- Call `minimatch(target, pattern)`.  Each recursive step of
`globMatchFuel` shortens the pattern or the target, so
`pattern length + target length + 1` fuel always suffices. -/
def minimatch (target pattern : String) : Bool :=
  globMatchFuel (pattern.data.length + target.data.length + 1) pattern.data target.data

/-! ## Line resolution and the eligible-line set -/

/-- Embeds `getLineNumber` (main.ts lines 87-96): the comment anchor for a
change.  The source tests tag presence (`"normal" in change`, then
`"add"`, then `"del"`) and falls through to `undefined`; on the closed
`parse-diff` variant every change carries one of the three tags, so the
fallback is unreachable and the result is always `some`. -/
def getLineNumber (change : Change) : Option Nat :=
  match change with
  | .normal _ ln2 _ => some ln2
  | .add ln _ => some ln
  | .del ln _ => some ln

/-- Embeds `isAddOrDel` (main.ts lines 99-101): `"add" in change || "del" in change`. -/
def isAddOrDel (change : Change) : Bool :=
  match change with
  | .add _ _ => true
  | .del _ _ => true
  | .normal _ _ _ => false

/-- The list `chunk.changes.filter(isAddOrDel).map(getLineNumber).filter(ln !== undefined)`
shared by `createPrompt` (lines 114-119) and `createComment`
(lines 212-217); the undefined-dropping filter is `filterMap id`. -/
def eligibleLines (chunk : Chunk) : List Nat :=
  ((chunk.changes.filter isAddOrDel).map getLineNumber).filterMap id

/-- Applies `new Set(...)` over `eligibleLines`: the value bound to
`changedLines` in `createPrompt` and `validLines` in `createComment`. -/
def changedLineSet (chunk : Chunk) : List Nat :=
  insertionOrderDedup (eligibleLines chunk)

/-! ## Prompt construction -/

/-- JS template-literal interpolation of a possibly-undefined string:
`undefined` prints as the text `undefined`. -/
def jsInterpolate (o : Option String) : String :=
  match o with
  | some s => s
  | none => "undefined"

/-- The annotation of one change in the diff listing of the prompt
(main.ts line 160): `getLineNumber(c) || ""` is falsy for `undefined`
and for `0`. -/
def changeAnnotation (c : Change) : String :=
  (match getLineNumber c with
   | some n => if n = 0 then "" else toString n
   | none => "") ++ " " ++
  (match c with
   | .normal _ _ content => content
   | .add _ content => content
   | .del _ content => content)

/-- Embeds `createPrompt` (main.ts lines 103-163).  `fullFileContent ? ... : ""`
is JS-truthy, so an empty string behaves like `undefined`. -/
def createPrompt (file : File) (chunk : Chunk) (prDetails : PRDetails)
    (fullFileContent : Option String) : String :=
  let ffc := fullFileContent.getD ""
  let contextSection :=
    if ffc = "" then ""
    else "\nFull file context:\n```\n" ++ ffc ++ "\n```\n"
  let changedLines := changedLineSet chunk
  "You are an expert code reviewer focused on identifying only critical issues. Instructions:\n\n" ++
  "- Provide the response in following JSON format: \x7b\"reviews\": [\x7b\"lineNumber\": <line_number>, \"reviewComment\": \"<review comment>\"\x7d]\x7d\n" ++
  "- ONLY comment on the most critical issues that fall into these categories:\n" ++
  "  1. High-impact bugs that could cause system failures or data corruption\n" ++
  "  2. Critical security vulnerabilities that could lead to exploits\n" ++
  "  3. Severe performance issues that could cause system bottlenecks\n" ++
  "  4. Major architectural flaws that significantly impact maintainability\n" ++
  "  5. Critical business logic flaws that could lead to system misbehavior\n" ++
  "- You may only comment on the following changed line numbers: " ++
  String.intercalate ", " (changedLines.map toString) ++ "\n" ++
  "- Completely ignore:\n" ++
  "  * Style issues or formatting\n" ++
  "  * Documentation\n" ++
  "  * Minor optimizations\n" ++
  "  * Naming conventions\n" ++
  "  * Code organization suggestions\n" ++
  "  * Any issue that isn\x27t immediately critical\n" ++
  "- Only provide comments when you are highly confident (90%+) that the issue is severe\n" ++
  "- Write comments in GitHub Markdown format\n" ++
  "- Be direct and specific about the severe impact of each issue\n" ++
  "- If you don\x27t find any critical issues, return an empty reviews array\n\n" ++
  "Review the following code diff in the file \"" ++ jsInterpolate file.«to» ++
  "\" considering the pull request context:\n  \n" ++
  "Pull request title: " ++ prDetails.title ++ "\n" ++
  "Pull request description:\n\n---\n" ++ prDetails.description ++ "\n---\n" ++
  contextSection ++
  "Git diff to review:\n\n```diff\n" ++ chunk.content ++ "\n" ++
  String.intercalate "\n" (chunk.changes.map changeAnnotation) ++
  "\n```\n"

/-! ## The model request (`getAIResponse`, main.ts lines 165-201) -/

/-- Shape of `queryConfig` (main.ts lines 169-176).  The numeric literals are
embedded as exact rationals. -/
structure QueryConfig where
  model : String
  temperature : ℚ
  max_tokens : Nat
  top_p : ℚ
  frequency_penalty : ℚ
  presence_penalty : ℚ
deriving DecidableEq, Repr

/-- The literal `queryConfig` object of main.ts lines 169-176: note the
`model` field is the string literal `"gpt-4o-2024-11-20"`; the
`OPENAI_API_MODEL` input is not consulted. -/
def queryConfig : QueryConfig :=
  { model := "gpt-4o-2024-11-20"
    temperature := 1/10
    max_tokens := 1000
    top_p := 1
    frequency_penalty := 1/10
    presence_penalty := 1/10 }

/-- One chat message `{role, content}`. -/
structure ChatMessage where
  role : String
  content : String
deriving DecidableEq, Repr

/-- The request passed to `openai.chat.completions.create`
(main.ts lines 179-193): the spread of `queryConfig` plus the forced
JSON response format and the two messages. -/
structure ChatRequest where
  config : QueryConfig
  response_format : String
  messages : List ChatMessage
deriving DecidableEq, Repr

/-- The request `getAIResponse` issues for a given prompt
(main.ts lines 179-193). -/
def chatRequest (prompt : String) : ChatRequest :=
  { config := queryConfig
    response_format := "json_object"
    messages :=
      [ { role := "system"
          content := "You are an expert code reviewer. Only respond with the requested JSON format." }
        , { role := "user", content := prompt } ] }

/-! ## Comment construction and validation -/

/-- Embeds `createComment` (main.ts lines 203-234).  `!file.to` is JS-truthy:
it holds when `to` is `undefined` or the empty string.  `Number` of a
non-numeric string is `NaN` (here `none`), which is never a member of
`validLines`. -/
def createComment (file : File) (chunk : Chunk)
    (aiResponses : List AIResponseItem) : List ReviewComment :=
  let validLines := changedLineSet chunk
  aiResponses.flatMap fun aiResponse =>
    if file.«to».getD "" = "" then []
    else
      match jsNumber aiResponse.lineNumber with
      | none => []
      | some lineNumber =>
        if lineNumber ∈ validLines then
          [{ body := aiResponse.reviewComment
             path := file.«to».getD ""
             line := lineNumber }]
        else []

/-! ## Orchestration (`analyzeCode` and `main`) -/

/-- Embeds `fullFileContent || undefined` (main.ts line 272): `null` and the
empty string are falsy and become `undefined`. -/
def jsOrUndefined (o : Option String) : Option String :=
  match o with
  | some s => if s = "" then none else some s
  | none => none

/-- Embeds `analyzeCode` (main.ts lines 251-284) with its two effectful
collaborators passed as functions: `content` is `getFileContent`
restricted to the file it is called on (a `null` result is `none`), and
`oracle` is `getAIResponse` (a caught provider/parse failure is `none`).
A file whose `to` is the deleted sentinel is skipped by `continue`; the
accumulator `comments.push(...)` becomes `flatMap` (the source's
`if (newComments)` test is always true of an array and is dropped). -/
def analyzeCode (parsedDiff : List File) (prDetails : PRDetails)
    (content : File → Option String)
    (oracle : String → Option (List AIResponseItem)) : List ReviewComment :=
  parsedDiff.flatMap fun file =>
    if file.«to» = some "/dev/null" then []
    else
      let fullFileContent := content file
      file.chunks.flatMap fun chunk =>
        match oracle (createPrompt file chunk prDetails (jsOrUndefined fullFileContent)) with
        | none => []
        | some aiResponse => createComment file chunk aiResponse

/-- The prompts built (equivalently, the model invocations issued) by
the `analyzeCode` loop of main.ts lines 257-274: one per chunk of every
non-deleted file, none for a file skipped at line 258. -/
def analyzeCodePrompts (parsedDiff : List File) (prDetails : PRDetails)
    (content : File → Option String) : List String :=
  parsedDiff.flatMap fun file =>
    if file.«to» = some "/dev/null" then []
    else
      let fullFileContent := content file
      file.chunks.map fun chunk =>
        createPrompt file chunk prDetails (jsOrUndefined fullFileContent)

/-- Embeds `core.getInput("exclude").split(",").map(s => s.trim())`
(main.ts lines 326-329). -/
def excludePatterns (inputs : Inputs) : List String :=
  (jsSplit inputs.exclude ',').map jsTrim

/-- The `filteredDiff` filter of main.ts lines 331-335: a file is kept
when no configured pattern matches `file.to ?? ""`. -/
def filteredDiff (parsedDiff : List File) (patterns : List String) : List File :=
  parsedDiff.filter fun file =>
    ! patterns.any fun pattern => minimatch (file.«to».getD "") pattern

/-- The observable external calls `main` can issue, in order. -/
inductive Effect where
  | fetchMetadata
  | fetchDiff
  | compareCommits
  | modelCall (prompt : String)
  | submitReview (comments : List ReviewComment)
deriving DecidableEq, Repr

/-- The run's environment: the trigger payload plus the responses of
every external collaborator `main` may consult. -/
structure Env where
  /-- Value of `eventData.action`. -/
  action : String
  prDetails : PRDetails
  /-- Result of `getDiff` (main.ts lines 44-57); `none` is `null`. -/
  openedDiff : Option String
  /-- Value `String(response.data)` of `compareCommits` (main.ts line 313). -/
  syncDiff : String
  inputs : Inputs
  /-- The external `parse-diff` library (main.ts line 324). -/
  parseDiff : String → List File
  /-- Result of `getFileContent` per file (main.ts lines 260-265). -/
  fileContent : File → Option String
  /-- Result of `getAIResponse` per prompt (main.ts lines 165-201). -/
  oracle : String → Option (List AIResponseItem)

/-- main.ts lines 319-346: the tail of `main` once a diff string is in
hand — parse, filter excluded paths, analyze, and submit only when at
least one comment was produced. -/
def mainRest (env : Env) (diff : String) : List Effect :=
  let parsedDiff := env.parseDiff diff
  let patterns := excludePatterns env.inputs
  let filtered := filteredDiff parsedDiff patterns
  let comments := analyzeCode filtered env.prDetails env.fileContent env.oracle
  (analyzeCodePrompts filtered env.prDetails env.fileContent).map Effect.modelCall
    ++ (if comments.length > 0 then [Effect.submitReview comments] else [])

/-- Embeds `main` (main.ts lines 286-346) as its trace of external calls.
`getPRDetails` always runs first; the branch on `eventData.action`
selects full-diff fetch, incremental compare, or the clean no-op
`return`; `if (!diff)` is JS-falsy, covering both `null` and the empty
string. -/
def mainEffects (env : Env) : List Effect :=
  Effect.fetchMetadata ::
    (if env.action = "opened" then
      Effect.fetchDiff ::
        (match env.openedDiff with
         | none => []
         | some diff => if diff = "" then [] else mainRest env diff)
    else if env.action = "synchronize" then
      Effect.compareCommits ::
        (if env.syncDiff = "" then [] else mainRest env env.syncDiff)
    else [])

/-! ## Helper lemmas -/

/-- Membership in the dedup accumulator: an element appears iff it is in
the remaining input and not already seen. -/
theorem mem_insertionOrderDedupAux (a : Nat) :
    ∀ (l seen : List Nat),
      a ∈ insertionOrderDedupAux l seen ↔ a ∈ l ∧ a ∉ seen := by
  intro l
  induction l with
  | nil => intro seen; simp [insertionOrderDedupAux]
  | cons x xs ih =>
    intro seen
    by_cases hx : x ∈ seen
    · rw [insertionOrderDedupAux, if_pos hx, ih]
      constructor
      · rintro ⟨h1, h2⟩
        exact ⟨List.mem_cons_of_mem _ h1, h2⟩
      · rintro ⟨h1, h2⟩
        rcases List.mem_cons.mp h1 with h | h
        · exact absurd (h ▸ hx) h2
        · exact ⟨h, h2⟩
    · rw [insertionOrderDedupAux, if_neg hx]
      constructor
      · intro h
        rcases List.mem_cons.mp h with h | h
        · subst h
          exact ⟨List.mem_cons_self _ _, hx⟩
        · obtain ⟨h1, h2⟩ := (ih _).mp h
          refine ⟨List.mem_cons_of_mem _ h1, fun hs => h2 (List.mem_cons_of_mem _ hs)⟩
      · rintro ⟨h1, h2⟩
        by_cases hax : a = x
        · subst hax
          exact List.mem_cons_self _ _
        · have h' : a ∈ xs := by
            rcases List.mem_cons.mp h1 with h | h
            · exact absurd h hax
            · exact h
          refine List.mem_cons_of_mem _ ((ih _).mpr ⟨h', ?_⟩)
          intro hs
          rcases List.mem_cons.mp hs with h | h
          · exact hax h
          · exact h2 h

/-- Deduplication by the modelled JS `Set` preserves membership. -/
theorem mem_insertionOrderDedup (a : Nat) (l : List Nat) :
    a ∈ insertionOrderDedup l ↔ a ∈ l := by
  rw [insertionOrderDedup, mem_insertionOrderDedupAux]
  simp

/-- Pointwise-equal functions give equal flat maps. -/
theorem flatMap_congr_on {α β : Type} (l : List α) (f g : α → List β)
    (h : ∀ a ∈ l, f a = g a) : l.flatMap f = l.flatMap g := by
  induction l with
  | nil => rfl
  | cons x xs ih =>
    simp only [List.flatMap_cons]
    rw [h x (List.mem_cons_self _ _), ih fun a ha => h a (List.mem_cons_of_mem _ ha)]

/-- Elements on which the flat-mapped function is empty can be filtered
out without changing the result. -/
theorem flatMap_filter_of_nil {α β : Type} (l : List α) (g : α → List β) (p : α → Bool)
    (h : ∀ a, p a = false → g a = []) :
    l.flatMap g = (l.filter p).flatMap g := by
  induction l with
  | nil => rfl
  | cons x xs ih =>
    cases hx : p x with
    | true => simp [List.filter_cons, hx, List.flatMap_cons, ih]
    | false => simp [List.filter_cons, hx, List.flatMap_cons, ih, h x hx]

/-- The empty minimatch pattern matches exactly the empty target. -/
theorem minimatch_empty_pattern (s : String) : minimatch s "" = true ↔ s = "" := by
  obtain ⟨data⟩ := s
  rw [minimatch]
  cases data with
  | nil => simp [globMatchFuel]
  | cons c cs => simp [globMatchFuel, String.ext_iff]

/-! ## Claim theorems -/

/-- C4: the line resolver sends a Context change to its new-file line
`ln2`, an Addition to its new-file line `ln`, a Deletion to its old-file
line `ln`, and for every Addition or Deletion change the result is a
defined (and, the lines being naturals, non-negative) line number: the
`undefined` fallback of main.ts line 95 is unreachable. -/
theorem getLineNumber_spec :
    (∀ (ln1 ln2 : Nat) (s : String), getLineNumber (.normal ln1 ln2 s) = some ln2)
    ∧ (∀ (ln : Nat) (s : String), getLineNumber (.add ln s) = some ln)
    ∧ (∀ (ln : Nat) (s : String), getLineNumber (.del ln s) = some ln)
    ∧ ∀ c : Change, isAddOrDel c = true → (getLineNumber c).isSome = true := by
  refine ⟨fun _ _ _ => rfl, fun _ _ => rfl, fun _ _ => rfl, fun c _ => ?_⟩
  cases c <;> rfl

/-- Witness for C4 at the concrete Addition `add 5 "+x"`. -/
theorem getLineNumber_spec_witness :
    isAddOrDel (Change.add 5 "+x") = true
    ∧ (getLineNumber (Change.add 5 "+x")).isSome = true :=
  ⟨by decide, getLineNumber_spec.2.2.2 (Change.add 5 "+x") (by decide)⟩

/-- C5: the per-chunk changed-line set (the value used both to
enumerate permitted lines in the prompt and to validate comments)
contains a number iff some Addition/Deletion change of the chunk
resolves to it; a Context change fails `isAddOrDel` and so can never
contribute. -/
theorem changedLineSet_spec :
    ∀ (chunk : Chunk) (n : Nat),
      n ∈ changedLineSet chunk
        ↔ ∃ c ∈ chunk.changes, isAddOrDel c = true ∧ getLineNumber c = some n := by
  intro chunk n
  rw [changedLineSet, mem_insertionOrderDedup]
  simp only [eligibleLines, List.mem_filterMap, List.mem_map, List.mem_filter, id_eq]
  constructor
  · rintro ⟨o, ⟨c, ⟨hc, hcd⟩, rfl⟩, hid⟩
    exact ⟨c, hc, hcd, hid⟩
  · rintro ⟨c, hc, hcd, hres⟩
    exact ⟨getLineNumber c, ⟨c, ⟨hc, hcd⟩, rfl⟩, hres⟩

/-- C1: every review comment emitted by `createComment` carries a line
number belonging to the chunk's eligible set — the line numbers resolved
from its Addition/Deletion changes — for any model response list,
including adversarial entries: a non-numeric `lineNumber` converts to
`NaN` and an out-of-diff number fails the membership test, and either
way the entry contributes no comment. -/
theorem createComment_line_eligible :
    ∀ (file : File) (chunk : Chunk) (rs : List AIResponseItem) (cmt : ReviewComment),
      cmt ∈ createComment file chunk rs → cmt.line ∈ eligibleLines chunk := by
  intro file chunk rs cmt h
  rw [createComment] at h
  simp only [List.mem_flatMap] at h
  obtain ⟨r, _, hr⟩ := h
  by_cases hto : file.«to».getD "" = ""
  · simp [hto] at hr
  · rw [if_neg hto] at hr
    cases hnum : jsNumber r.lineNumber with
    | none => simp [hnum] at hr
    | some n =>
      simp only [hnum] at hr
      by_cases hmem : n ∈ changedLineSet chunk
      · rw [if_pos hmem] at hr
        rcases List.mem_singleton.mp hr with rfl
        exact (mem_insertionOrderDedup _ _).mp hmem
      · rw [if_neg hmem] at hr
        exact absurd hr (List.not_mem_nil _)

/-- Concrete chunk used by witnesses: one context line, one deletion at
old-file line 2, one addition at new-file line 2. -/
def chunkEx : Chunk :=
  { oldStart := 1, oldLines := 2, newStart := 1, newLines := 2
    content := "@@ -1,2 +1,2 @@"
    changes := [Change.normal 1 1 " a", Change.del 2 "-b", Change.add 2 "+c"] }

/-- Concrete file used by witnesses. -/
def fileEx : File :=
  { «to» := some "b.txt", chunks := [chunkEx] }

/-- Witness for C1: a response entry naming eligible line 2 yields a
comment, whose line is in the eligible set. -/
theorem createComment_line_eligible_witness :
    ({ body := "bad", path := "b.txt", line := 2 } : ReviewComment)
        ∈ createComment fileEx chunkEx [{ lineNumber := "2", reviewComment := "bad" }]
    ∧ (2 : Nat) ∈ eligibleLines chunkEx :=
  ⟨by decide,
   createComment_line_eligible fileEx chunkEx
     [{ lineNumber := "2", reviewComment := "bad" }]
     { body := "bad", path := "b.txt", line := 2 } (by decide)⟩

/-- C9: `createComment` is a list homomorphism over the model-response
list, and decomposes entrywise: each emitted comment depends only on its
own response entry, so duplicate entries each produce their own comment
(no deduplication). -/
theorem createComment_homomorphism :
    ∀ (file : File) (chunk : Chunk) (xs ys : List AIResponseItem),
      (createComment file chunk (xs ++ ys)
          = createComment file chunk xs ++ createComment file chunk ys)
      ∧ ∀ rs : List AIResponseItem,
          createComment file chunk rs
            = rs.flatMap fun r => createComment file chunk [r] := by
  intro file chunk xs ys
  constructor
  · simp only [createComment]
    exact List.flatMap_append _ _ _
  · intro rs
    simp only [createComment]
    simp

/-- C2: a model-provider failure or unparsable model output for a chunk
(`getAIResponse` resolving to `null`, embedded as the oracle returning
`none`) is indistinguishable from a successful empty response: the
failing chunk contributes zero comments and the processing of every
remaining chunk and file is unchanged, so the run is not aborted and no
error is surfaced for that chunk. -/
theorem analyzeCode_failure_local :
    ∀ (files : List File) (prDetails : PRDetails) (content : File → Option String)
      (oracle : String → Option (List AIResponseItem)),
      analyzeCode files prDetails content oracle
        = analyzeCode files prDetails content fun p => some ((oracle p).getD []) := by
  intro files prDetails content oracle
  rw [analyzeCode, analyzeCode]
  apply flatMap_congr_on
  intro file _
  by_cases hdel : file.«to» = some "/dev/null"
  · simp [hdel]
  · rw [if_neg hdel, if_neg hdel]
    apply flatMap_congr_on
    intro chunk _
    cases h : oracle (createPrompt file chunk prDetails (jsOrUndefined (content file))) with
    | none => simp [h, createComment]
    | some rs => simp [h]

/-- C6: a file whose destination path is the deleted sentinel
`/dev/null` is skipped by `analyzeCode` before any prompt is built for
it: removing every such file from the parsed diff changes neither the
aggregated comment list nor the list of prompts built (and hence of
model invocations issued). -/
theorem deleted_files_noop :
    ∀ (files : List File) (prDetails : PRDetails) (content : File → Option String)
      (oracle : String → Option (List AIResponseItem)),
      (analyzeCode files prDetails content oracle
          = analyzeCode (files.filter fun f => f.«to» ≠ some "/dev/null")
              prDetails content oracle)
      ∧ analyzeCodePrompts files prDetails content
          = analyzeCodePrompts (files.filter fun f => f.«to» ≠ some "/dev/null")
              prDetails content := by
  intro files prDetails content oracle
  constructor
  · rw [analyzeCode, analyzeCode]
    apply flatMap_filter_of_nil
    intro f hf
    simp only [decide_eq_false_iff_not, not_not] at hf
    simp [hf]
  · rw [analyzeCodePrompts, analyzeCodePrompts]
    apply flatMap_filter_of_nil
    intro f hf
    simp only [decide_eq_false_iff_not, not_not] at hf
    simp [hf]

/-- C7: a parsed file survives exclusion filtering iff no configured
glob pattern matches its destination path (`file.to ?? ""`); with the
pattern list `["*.md"]` and files `a.md`, `b.txt`, only `b.txt`
proceeds. -/
theorem exclusion_filter_spec :
    (∀ (files : List File) (patterns : List String) (f : File),
        f ∈ filteredDiff files patterns
          ↔ f ∈ files ∧ ¬ ∃ p ∈ patterns, minimatch (f.«to».getD "") p = true)
    ∧ filteredDiff
        [{ «to» := some "a.md", chunks := [] }, { «to» := some "b.txt", chunks := [] }]
        ["*.md"]
        = [{ «to» := some "b.txt", chunks := [] }] := by
  constructor
  · intro files patterns f
    simp [filteredDiff, List.mem_filter, List.any_eq_true]
  · decide

/-- C10: with the default empty `exclude` input the pattern list
obtained by splitting on commas is the singleton `[""]`; during
filtering a missing destination path is matched as the empty string,
which the empty pattern matches, so such a file is excluded, while every
file whose destination path is a non-empty string proceeds. -/
theorem default_exclude_spec :
    excludePatterns
        { GITHUB_TOKEN := "", OPENAI_API_KEY := "", OPENAI_API_MODEL := "", exclude := "" }
        = [""]
    ∧ ∀ (files : List File) (f : File),
        f ∈ filteredDiff files [""] ↔ f ∈ files ∧ f.«to».getD "" ≠ "" := by
  constructor
  · decide
  · intro files f
    simp [filteredDiff, List.mem_filter, List.any_eq_true]
    intro _
    rw [Bool.eq_false_iff]
    exact not_congr (minimatch_empty_pattern _)

/-- C8: on a trigger action that is neither `opened` nor `synchronize`,
`main` terminates cleanly as a deliberate no-op: its trace contains the
initial metadata fetch and nothing else — no diff fetch or commit
comparison, hence no parsing, no model invocation and no review
submission — and, the trace function being total, no error is raised. -/
theorem main_noop_on_unsupported :
    ∀ env : Env, env.action ≠ "opened" → env.action ≠ "synchronize" →
      mainEffects env = [Effect.fetchMetadata] := by
  intro env h1 h2
  simp [mainEffects, h1, h2]

/-- Concrete environment whose trigger action is `closed`. -/
def envClosed : Env :=
  { action := "closed"
    prDetails := { owner := "o", repo := "r", pull_number := 1, title := "t", description := "d" }
    openedDiff := none
    syncDiff := ""
    inputs := { GITHUB_TOKEN := "", OPENAI_API_KEY := "", OPENAI_API_MODEL := "", exclude := "" }
    parseDiff := fun _ => []
    fileContent := fun _ => none
    oracle := fun _ => none }

/-- Witness for C8 at the concrete `closed` trigger. -/
theorem main_noop_on_unsupported_witness :
    envClosed.action ≠ "opened" ∧ envClosed.action ≠ "synchronize"
    ∧ mainEffects envClosed = [Effect.fetchMetadata] :=
  ⟨by decide, by decide, main_noop_on_unsupported envClosed (by decide) (by decide)⟩

/-- C3 counterexample: the request `getAIResponse` issues carries the
hardcoded model string `gpt-4o-2024-11-20` of main.ts line 170, not the
configured `OPENAI_API_MODEL` input — here set to `gpt-3.5-turbo` — so
the claim that the invocation uses the configured model identifier fails
at this concrete input. -/
theorem chatRequest_ignores_configured_model :
    (chatRequest "p").config.model
      ≠ OPENAI_API_MODEL
          { GITHUB_TOKEN := "t", OPENAI_API_KEY := "k"
            OPENAI_API_MODEL := "gpt-3.5-turbo", exclude := "" } := by
  decide

/-- C3 amended: every model invocation is issued with the hardcoded
model identifier `gpt-4o-2024-11-20` (the configured model-identifier
input is read but never used) together with the fixed sampling
configuration temperature 0.1, max output tokens 1000, top_p 1,
frequency_penalty 0.1, presence_penalty 0.1, and the forced JSON
structured-output mode. -/
theorem chatRequest_fixed_config :
    ∀ prompt : String,
      (chatRequest prompt).config
          = { model := "gpt-4o-2024-11-20", temperature := 1/10, max_tokens := 1000
              top_p := 1, frequency_penalty := 1/10, presence_penalty := 1/10 }
      ∧ (chatRequest prompt).response_format = "json_object" :=
  fun _ => ⟨rfl, rfl⟩

end AIReviewer
